import Mathlib

/-!
Shallow embedding of the MoodPet backend (src/backend/server.py).

The document store is modelled as in-memory lists of documents; `find_one`
becomes `List.find?` on the id field and `update_one` with a `$set`/`$inc`
payload becomes an update of the first matching document.  Every document
written by this backend carries all of its fields (`create_pet`,
`create_mood_entry`, achievement/shop seeding always write full models, and
`$set` never removes a field), so documents are records with total fields and
the `dict.get(key, default)` fallbacks of the Python code are unreachable.
Timestamps (`datetime.now`) are abstracted as a `now : Nat` parameter;
`uuid.uuid4()` is abstracted as a fresh-id counter in the store state.
Python integers are unbounded, hence `Int`; Python's `//` is floor division,
hence `Int.fdiv`.  Each HTTP handler may raise `HTTPException`, so handlers
return `Except ApiError`.
-/

/-- The `Emotion` enum of server.py. -/
inductive Emotion where
  | happy
  | sad
  | angry
  | anxious
  | calm
  | excited
deriving DecidableEq

/-- The `PetStage` enum of server.py. -/
inductive PetStage where
  | egg
  | baby
  | adult
  | legendary
deriving DecidableEq

/-- A pet document, mirroring the `Pet` pydantic model of server.py. -/
structure PetDoc where
  id : String
  name : String := "MoodPet"
  stage : PetStage := PetStage.egg
  happiness : Int := 50
  health : Int := 100
  coins : Int := 100
  experience : Int := 0
  last_fed : Option Nat := none
  last_played : Option Nat := none
  last_trained : Option Nat := none
  created_at : Nat := 0
deriving DecidableEq

/-- The `PetUpdate` pydantic model: optional fields; `None` fields are dropped
from the `$set` payload by `update_pet`. -/
structure PetUpdate where
  name : Option String := none
  happiness : Option Int := none
  health : Option Int := none
  coins : Option Int := none
deriving DecidableEq

/-- A mood-entry document, mirroring the `MoodEntry` pydantic model. -/
structure MoodEntryDoc where
  id : String
  emotion : Emotion
  intensity : Int := 5
  note : Option String := none
  timestamp : Nat := 0
  pet_id : String
deriving DecidableEq

/-- The `MoodEntryCreate` request model (intensity validated to [1,10] by the
transport layer; theorems carry that bound as a hypothesis). -/
structure MoodEntryCreate where
  emotion : Emotion
  intensity : Int := 5
  note : Option String := none
  pet_id : String
deriving DecidableEq

/-- An achievement document, mirroring the `Achievement` pydantic model. -/
structure AchievementDoc where
  id : String
  name : String
  description : String
  icon : String
  unlocked : Bool := false
  unlocked_at : Option Nat := none
  pet_id : String
deriving DecidableEq

/-- A shop-item document, mirroring the `ShopItem` pydantic model. -/
structure ShopItemDoc where
  id : String
  name : String
  description : String
  price : Int
  category : String
  icon : String
deriving DecidableEq

/-- The document store: the four collections used by server.py plus a
fresh-id counter abstracting `uuid.uuid4()`. -/
structure DB where
  pets : List PetDoc := []
  mood_entries : List MoodEntryDoc := []
  achievements : List AchievementDoc := []
  shop_items : List ShopItemDoc := []
  nextId : Nat := 0
deriving DecidableEq

/-- Errors a handler can surface (`HTTPException(status_code=404, ...)`). -/
inductive ApiError where
  | notFound (detail : String)
deriving DecidableEq

/-- The `{"message": ..., "pet": ...}` envelope returned by the action
handlers feed/play/train. -/
structure ActionResponse where
  message : String
  pet : PetDoc
deriving DecidableEq

/-- `find_one({"id": pet_id})` on the pets collection: first match wins. -/
def findPet (db : DB) (pet_id : String) : Option PetDoc :=
  db.pets.find? (fun p => p.id = pet_id)

/-- `update_one({"id": pet_id}, ...)`: rewrite the first document whose id
matches, leave the rest untouched. -/
def updateFirst (l : List PetDoc) (pet_id : String) (f : PetDoc → PetDoc) :
    List PetDoc :=
  match l with
  | [] => []
  | p :: ps =>
      if p.id = pet_id then f p :: ps else p :: updateFirst ps pet_id f

/-- POST /api/pets: insert a pet with default stats and return it. -/
def create_pet (db : DB) (name : String) (now : Nat) :
    Except ApiError (DB × PetDoc) :=
  let pet : PetDoc := { id := toString db.nextId, name := name, created_at := now }
  Except.ok ({ db with pets := db.pets ++ [pet], nextId := db.nextId + 1 }, pet)

/-- GET /api/pets/{pet_id}: 404 when the pet does not exist. -/
def get_pet (db : DB) (pet_id : String) : Except ApiError PetDoc :=
  match findPet db pet_id with
  | none => Except.error (ApiError.notFound "Pet not found")
  | some pet => Except.ok pet

/-- The `$set` payload of PUT /api/pets/{pet_id}: fields that are `None` are
filtered out of `update_data`, the rest overwrite the stored values as given. -/
def applyPetUpdate (u : PetUpdate) (p : PetDoc) : PetDoc :=
  { p with
    name := u.name.getD p.name,
    happiness := u.happiness.getD p.happiness,
    health := u.health.getD p.health,
    coins := u.coins.getD p.coins }

/-- PUT /api/pets/{pet_id}: apply the `$set` (a no-op when no pet matches),
then re-read; 404 when the pet does not exist. -/
def update_pet (db : DB) (pet_id : String) (u : PetUpdate) :
    Except ApiError (DB × PetDoc) :=
  let db' : DB := { db with pets := updateFirst db.pets pet_id (applyPetUpdate u) }
  match findPet db' pet_id with
  | none => Except.error (ApiError.notFound "Pet not found")
  | some pet => Except.ok (db', pet)

/-- The `updates` dict of POST /api/pets/{pet_id}/feed. -/
def feedUpdates (p : PetDoc) (now : Nat) : PetDoc :=
  { p with
    happiness := min 100 (p.happiness + 15),
    health := min 100 (p.health + 10),
    coins := p.coins + 5,
    experience := p.experience + 10,
    last_fed := some now }

/-- POST /api/pets/{pet_id}/feed. -/
def feed_pet (db : DB) (pet_id : String) (now : Nat) :
    Except ApiError (DB × ActionResponse) :=
  match findPet db pet_id with
  | none => Except.error (ApiError.notFound "Pet not found")
  | some pet =>
      let db' : DB := { db with pets := updateFirst db.pets pet_id (fun q => feedUpdates q now) }
      Except.ok (db', { message := "Pet fed successfully!", pet := feedUpdates pet now })

/-- The `updates` dict of POST /api/pets/{pet_id}/play (health untouched). -/
def playUpdates (p : PetDoc) (now : Nat) : PetDoc :=
  { p with
    happiness := min 100 (p.happiness + 20),
    coins := p.coins + 8,
    experience := p.experience + 15,
    last_played := some now }

/-- POST /api/pets/{pet_id}/play. -/
def play_with_pet (db : DB) (pet_id : String) (now : Nat) :
    Except ApiError (DB × ActionResponse) :=
  match findPet db pet_id with
  | none => Except.error (ApiError.notFound "Pet not found")
  | some pet =>
      let db' : DB := { db with pets := updateFirst db.pets pet_id (fun q => playUpdates q now) }
      Except.ok (db', { message := "Had fun playing!", pet := playUpdates pet now })

/-- The evolution check of train_pet: a priority chain keyed on the updated
experience AND the current stage. -/
def evolveStage (stage : PetStage) (experience : Int) : PetStage :=
  if experience ≥ 300 ∧ stage = PetStage.adult then PetStage.legendary
  else if experience ≥ 150 ∧ stage = PetStage.baby then PetStage.adult
  else if experience ≥ 50 ∧ stage = PetStage.egg then PetStage.baby
  else stage

/-- The `updates` dict of POST /api/pets/{pet_id}/train, including the
evolution check on the updated experience. -/
def trainUpdates (p : PetDoc) (now : Nat) : PetDoc :=
  { p with
    happiness := min 100 (p.happiness + 10),
    health := min 100 (p.health + 5),
    coins := p.coins + 12,
    experience := p.experience + 25,
    last_trained := some now,
    stage := evolveStage p.stage (p.experience + 25) }

/-- POST /api/pets/{pet_id}/train. -/
def train_pet (db : DB) (pet_id : String) (now : Nat) :
    Except ApiError (DB × ActionResponse) :=
  match findPet db pet_id with
  | none => Except.error (ApiError.notFound "Pet not found")
  | some pet =>
      let db' : DB := { db with pets := updateFirst db.pets pet_id (fun q => trainUpdates q now) }
      Except.ok (db', { message := "Training completed!", pet := trainUpdates pet now })

/-- The `happiness_change` computed by create_mood_entry.  For the negative
emotions the Python code is `-mood_data.intensity // 2`, which parses as
`(-intensity) // 2`: floor division of the negated intensity. -/
def moodHappinessChange (emotion : Emotion) (intensity : Int) : Int :=
  match emotion with
  | Emotion.happy | Emotion.excited | Emotion.calm => intensity
  | Emotion.sad | Emotion.angry | Emotion.anxious => Int.fdiv (-intensity) 2

/-- POST /api/moods: insert the entry unconditionally, then, only when the
owning pet exists, `$set` the clamped happiness and `$inc` coins/experience. -/
def create_mood_entry (db : DB) (mood_data : MoodEntryCreate) (now : Nat) :
    Except ApiError (DB × MoodEntryDoc) :=
  let entry : MoodEntryDoc :=
    { id := toString db.nextId, emotion := mood_data.emotion,
      intensity := mood_data.intensity, note := mood_data.note,
      timestamp := now, pet_id := mood_data.pet_id }
  let db1 : DB := { db with mood_entries := db.mood_entries ++ [entry],
                            nextId := db.nextId + 1 }
  match findPet db1 mood_data.pet_id with
  | none => Except.ok (db1, entry)
  | some pet =>
      let happiness_change := moodHappinessChange mood_data.emotion mood_data.intensity
      let new_happiness := max 0 (min 100 (pet.happiness + happiness_change))
      let coins_earned := 10 + mood_data.intensity
      let moodSet := fun (p : PetDoc) =>
        { p with happiness := new_happiness,
                 coins := p.coins + coins_earned,
                 experience := p.experience + 5 }
      let db2 : DB := { db1 with pets := updateFirst db1.pets mood_data.pet_id moodSet }
      Except.ok (db2, entry)

/-- The `default_items` list of GET /api/shop, with ids drawn from the
fresh-id supply. -/
def defaultShopItems (baseId : Nat) : List ShopItemDoc :=
  [ { id := toString baseId, name := "Premium Food",
      description := "Increases happiness by 25", price := 50,
      category := "food", icon := "🍖" },
    { id := toString (baseId + 1), name := "Toy Ball",
      description := "Fun toy for playing", price := 30,
      category := "toy", icon := "🏀" },
    { id := toString (baseId + 2), name := "Training Weights",
      description := "Boosts training effectiveness", price := 75,
      category := "training", icon := "🏋️" },
    { id := toString (baseId + 3), name := "Sparkle Background",
      description := "Beautiful starry background", price := 100,
      category := "background", icon := "✨" },
    { id := toString (baseId + 4), name := "Rainbow Collar",
      description := "Colorful pet accessory", price := 60,
      category := "accessory", icon := "🌈" } ]

/-- GET /api/shop: seed the five default items when the collection is empty,
then return the collection (reads capped at 100 by `to_list(100)`). -/
def get_shop_items (db : DB) : Except ApiError (DB × List ShopItemDoc) :=
  let existing_items := db.shop_items.take 100
  if existing_items.isEmpty then
    let db' : DB := { db with shop_items := db.shop_items ++ defaultShopItems db.nextId,
                              nextId := db.nextId + 5 }
    Except.ok (db', db'.shop_items.take 100)
  else
    Except.ok (db, existing_items)

/-- The `default_achievements` seeded by GET /api/achievements/{pet_id}. -/
def defaultAchievements (pet_id : String) (baseId : Nat) : List AchievementDoc :=
  [ { id := toString baseId, name := "First Steps",
      description := "Create your first pet", icon := "🐣", pet_id := pet_id },
    { id := toString (baseId + 1), name := "Mood Tracker",
      description := "Log 10 mood entries", icon := "📊", pet_id := pet_id },
    { id := toString (baseId + 2), name := "Happy Pet",
      description := "Reach 100 happiness", icon := "😊", pet_id := pet_id },
    { id := toString (baseId + 3), name := "Evolution Master",
      description := "Evolve to Adult stage", icon := "🌟", pet_id := pet_id },
    { id := toString (baseId + 4), name := "Coin Collector",
      description := "Earn 500 coins", icon := "💰", pet_id := pet_id } ]

/-- GET /api/achievements/{pet_id}: seed five defaults when the pet has no
achievement rows yet (no pet-existence check anywhere on this path). -/
def get_achievements (db : DB) (pet_id : String) :
    Except ApiError (DB × List AchievementDoc) :=
  let achievements := (db.achievements.filter (fun a => a.pet_id = pet_id)).take 100
  if achievements.isEmpty then
    let db' : DB := { db with
      achievements := db.achievements ++ defaultAchievements pet_id db.nextId,
      nextId := db.nextId + 5 }
    Except.ok (db', (db'.achievements.filter (fun a => a.pet_id = pet_id)).take 100)
  else
    Except.ok (db, achievements)

/-- The store after a handler ran: the new store on success, the old one when
the handler raised. -/
def dbAfter {α : Type} (r : Except ApiError (DB × α)) (db : DB) : DB :=
  match r with
  | Except.ok (db', _) => db'
  | Except.error _ => db

/-- The payload a handler returned, when it did not raise. -/
def okPayload {α : Type} (r : Except ApiError (DB × α)) : Option α :=
  match r with
  | Except.ok (_, a) => some a
  | Except.error _ => none

/-- Whether a handler completed without raising. -/
def isOkE {α : Type} (r : Except ApiError α) : Bool :=
  match r with
  | Except.ok _ => true
  | Except.error _ => false

/-- The stages of all stored pets, in collection order. -/
def stagesOf (db : DB) : List PetStage := db.pets.map (fun p => p.stage)

/-- Position of a stage along the forward chain egg, baby, adult, legendary. -/
def stageIdx : PetStage → Nat
  | PetStage.egg => 0
  | PetStage.baby => 1
  | PetStage.adult => 2
  | PetStage.legendary => 3

/-- The documented range invariant on a stored pet: happiness and health lie
within [0,100]. -/
def statsInRange (p : PetDoc) : Prop :=
  0 ≤ p.happiness ∧ p.happiness ≤ 100 ∧ 0 ≤ p.health ∧ p.health ≤ 100

instance : DecidablePred statsInRange := fun p =>
  decidable_of_iff (0 ≤ p.happiness ∧ p.happiness ≤ 100 ∧ 0 ≤ p.health ∧ p.health ≤ 100)
    Iff.rfl

/-- One of the three stat-mutating pet actions. -/
inductive PetAction where
  | feed
  | play
  | train
deriving DecidableEq

/-- Dispatch an action to its handler. -/
def applyAction (a : PetAction) (db : DB) (pet_id : String) (now : Nat) :
    Except ApiError (DB × ActionResponse) :=
  match a with
  | PetAction.feed => feed_pet db pet_id now
  | PetAction.play => play_with_pet db pet_id now
  | PetAction.train => train_pet db pet_id now

/-- Run a sequence of actions against the store, each addressed at a pet id
and stamped with a time; a raised NotFound leaves the store unchanged. -/
def runActions (acts : List (PetAction × String × Nat)) (db : DB) : DB :=
  match acts with
  | [] => db
  | (a, pid, now) :: rest => runActions rest (dbAfter (applyAction a db pid now) db)

/-- The content fields of a shop item (everything except the generated id). -/
def shopItemData (it : ShopItemDoc) : String × String × Int × String × String :=
  (it.name, it.description, it.price, it.category, it.icon)

/-- A pet with the creation-default stats. -/
def petOne : PetDoc := { id := "p1" }

/-- A store holding exactly `petOne`. -/
def dbOne : DB := { pets := [petOne] }

/-- The empty store. -/
def dbEmpty : DB := {}

/-- A pet whose stored happiness is already far below the documented range
(reachable through PUT /api/pets, which never clamps). -/
def petNeg : PetDoc := { id := "p1", happiness := -100 }

/-- A store holding exactly `petNeg`. -/
def dbNeg : DB := { pets := [petNeg] }

/-- `update_one` on an id that matches no document leaves the collection
unchanged. -/
theorem updateFirst_of_find_none (l : List PetDoc) (pid : String)
    (f : PetDoc → PetDoc) (h : l.find? (fun q => q.id = pid) = none) :
    updateFirst l pid f = l := by
  induction l with
  | nil => rfl
  | cons a as ih =>
      simp only [List.find?] at h
      by_cases ha : a.id = pid
      · simp [ha] at h
      · simp only [updateFirst, if_neg ha]
        simp only [decide_eq_false ha, Bool.false_eq_true, false_and] at h
        rw [ih h]

/-- Reading back after `update_one` returns the rewritten first match,
provided the rewrite keeps the id. -/
theorem find_updateFirst (l : List PetDoc) (pid : String) (f : PetDoc → PetDoc)
    (hid : ∀ p, (f p).id = p.id) (p : PetDoc)
    (h : l.find? (fun q => q.id = pid) = some p) :
    (updateFirst l pid f).find? (fun q => q.id = pid) = some (f p) := by
  induction l with
  | nil => simp [List.find?] at h
  | cons a as ih =>
      by_cases ha : a.id = pid
      · simp only [List.find?, decide_eq_true ha] at h
        simp only [updateFirst, if_pos ha, List.find?, hid a, decide_eq_true ha]
        simp_all
      · simp only [List.find?, decide_eq_false ha] at h
        simp only [updateFirst, if_neg ha, List.find?, decide_eq_false ha]
        simp_all

/-- A projection untouched by the rewrite is untouched collection-wide. -/
theorem map_updateFirst {α : Type} (g : PetDoc → α) (l : List PetDoc)
    (pid : String) (f : PetDoc → PetDoc) (h : ∀ p, g (f p) = g p) :
    (updateFirst l pid f).map g = l.map g := by
  induction l with
  | nil => rfl
  | cons a as ih =>
      by_cases ha : a.id = pid
      · simp [updateFirst, if_pos ha, h]
      · simp [updateFirst, if_neg ha, ih]

/-- Every document of the rewritten collection is an original document or the
rewrite of one. -/
theorem mem_updateFirst {q : PetDoc} {l : List PetDoc} {pid : String}
    {f : PetDoc → PetDoc} (h : q ∈ updateFirst l pid f) :
    q ∈ l ∨ ∃ p, p ∈ l ∧ q = f p := by
  induction l with
  | nil => simp [updateFirst] at h
  | cons a as ih =>
      by_cases ha : a.id = pid
      · simp only [updateFirst, if_pos ha, List.mem_cons] at h
        rcases h with h | h
        · exact Or.inr ⟨a, List.mem_cons_self a as, h⟩
        · exact Or.inl (List.mem_cons_of_mem a h)
      · simp only [updateFirst, if_neg ha, List.mem_cons] at h
        rcases h with h | h
        · exact Or.inl (h ▸ List.mem_cons_self a as)
        · rcases ih h with h' | ⟨p, hp, hq⟩
          · exact Or.inl (List.mem_cons_of_mem a h')
          · exact Or.inr ⟨p, List.mem_cons_of_mem a hp, hq⟩

/-- Feeding keeps happiness and health inside [0,100] when they start there. -/
theorem statsInRange_feedUpdates (p : PetDoc) (now : Nat) (h : statsInRange p) :
    statsInRange (feedUpdates p now) := by
  unfold statsInRange feedUpdates at *
  dsimp only at *
  omega

/-- Playing keeps happiness and health inside [0,100] when they start there. -/
theorem statsInRange_playUpdates (p : PetDoc) (now : Nat) (h : statsInRange p) :
    statsInRange (playUpdates p now) := by
  unfold statsInRange playUpdates at *
  dsimp only at *
  omega

/-- Training keeps happiness and health inside [0,100] when they start there. -/
theorem statsInRange_trainUpdates (p : PetDoc) (now : Nat) (h : statsInRange p) :
    statsInRange (trainUpdates p now) := by
  unfold statsInRange trainUpdates at *
  dsimp only at *
  omega

/-- A single feed/play/train preserves the range invariant across the store. -/
theorem statsInRange_applyAction (a : PetAction) (db : DB) (pid : String)
    (now : Nat) (h : ∀ p ∈ db.pets, statsInRange p) :
    ∀ q ∈ (dbAfter (applyAction a db pid now) db).pets, statsInRange q := by
  cases a <;>
    · simp only [applyAction, feed_pet, play_with_pet, train_pet]
      cases hf : findPet db pid with
      | none => simpa [dbAfter] using h
      | some pet =>
          simp only [dbAfter]
          intro q hq
          rcases mem_updateFirst hq with hq' | ⟨p, hp, rfl⟩
          · exact h q hq'
          · first
            | exact statsInRange_feedUpdates p now (h p hp)
            | exact statsInRange_playUpdates p now (h p hp)
            | exact statsInRange_trainUpdates p now (h p hp)

/-- Claim C2 (amended): provided every stored pet starts with happiness and
health inside [0,100] — as creation guarantees — any sequence of feed, play,
and train actions keeps every stored pet's happiness and health inside
[0,100].  (The handlers clamp only from above, so a store seeded with
out-of-range values is not repaired; see the counterexample.) -/
theorem C2_theorem (acts : List (PetAction × String × Nat)) (db : DB)
    (h : ∀ p ∈ db.pets, statsInRange p) :
    ∀ q ∈ (runActions acts db).pets, statsInRange q := by
  induction acts generalizing db with
  | nil => simpa [runActions] using h
  | cons act rest ih =>
      obtain ⟨a, pid, now⟩ := act
      simp only [runActions]
      exact ih _ (statsInRange_applyAction a db pid now h)

/-- Claim C2, counterexample to the original statement: a pet whose stored
happiness is -100 (any starting state is allowed by the claim) is fed, and
its happiness afterwards is -85, outside [0,100] — the handlers clamp only
from above. -/
theorem C2_counterexample :
    (okPayload (feed_pet dbNeg "p1" 0)).map (fun r => r.pet.happiness) =
      some (-85) ∧
    (findPet (dbAfter (feed_pet dbNeg "p1" 0) dbNeg) "p1").map
      (fun p => p.happiness) = some (-85) ∧
    ¬ (0 ≤ (-85 : Int)) := by decide

/-- Claim C2, witness: a store holding one pet with default stats satisfies
the invariant, and still does after a feed, a play and a train. -/
theorem C2_witness :
    (∀ p ∈ dbOne.pets, statsInRange p) ∧
    ∀ q ∈ (runActions
        [(PetAction.feed, "p1", 0), (PetAction.play, "p1", 1),
         (PetAction.train, "p1", 2)] dbOne).pets, statsInRange q :=
  ⟨by decide, C2_theorem _ dbOne (by decide)⟩

/-- Claim C1, counterexample to the original statement: at intensity 5 with a
negative emotion the code's happiness delta is (-5) fdiv 2 = -3, while the
claimed -(intensity div 2) is -2.  Python's `-intensity // 2` parses as
`(-intensity) // 2`, floor division toward negative infinity of the negated
intensity — exactly what the claim rules out. -/
theorem C1_counterexample :
    moodHappinessChange Emotion.sad 5 = -3 ∧
    -((5 : Int) / 2) = -2 ∧
    moodHappinessChange Emotion.sad 5 ≠ -((5 : Int) / 2) := by decide

/-- Claim C1 (amended): for every emotion in the negative set and every
intensity in [1,10], the happiness delta is `(-intensity) // 2` — floor
division toward negative infinity of the negated intensity, equivalently
-((intensity + 1) / 2): intensity 5 gives -3, 7 gives -4, 10 gives -5. -/
theorem C1_theorem (e : Emotion)
    (he : e = Emotion.sad ∨ e = Emotion.angry ∨ e = Emotion.anxious)
    (i : Int) (h1 : 1 ≤ i) (h2 : i ≤ 10) :
    moodHappinessChange e i = -((i + 1) / 2) ∧
    moodHappinessChange e i = Int.fdiv (-i) 2 := by
  have hch : moodHappinessChange e i = Int.fdiv (-i) 2 := by
    rcases he with h | h | h <;> subst h <;> rfl
  refine ⟨?_, hch⟩
  rw [hch]
  interval_cases i <;> decide

/-- Claim C1, witness at emotion sad, intensity 7: delta -4. -/
theorem C1_witness :
    (Emotion.sad = Emotion.sad ∨ Emotion.sad = Emotion.angry ∨
      Emotion.sad = Emotion.anxious) ∧
    (1 : Int) ≤ 7 ∧ (7 : Int) ≤ 10 ∧
    (moodHappinessChange Emotion.sad 7 = -(((7 : Int) + 1) / 2) ∧
      moodHappinessChange Emotion.sad 7 = Int.fdiv (-7) 2) :=
  ⟨Or.inl rfl, by decide, by decide,
    C1_theorem Emotion.sad (Or.inl rfl) 7 (by decide) (by decide)⟩

/-- The evolution chain moves a stage forward by at most one position and
never backwards, whatever the experience value. -/
theorem evolveStage_forward (s : PetStage) (e : Int) :
    stageIdx s ≤ stageIdx (evolveStage s e) ∧
    (evolveStage s e = s ∨ stageIdx (evolveStage s e) = stageIdx s + 1) := by
  cases s <;> simp only [evolveStage] <;> split_ifs <;> simp_all [stageIdx]

/-- Claim C3: feed, play, update and mood logging never change any stored
pet's stage; train recomputes the addressed pet's stage through
`evolveStage`, which requires the specific predecessor stage in addition to
the experience threshold, advances by at most one position along
egg → baby → adult → legendary, never regresses, and in particular sends an
egg with experience 400 to baby, not legendary. -/
theorem C3_theorem (db : DB) (pid : String) (now : Nat) (u : PetUpdate)
    (md : MoodEntryCreate) (s : PetStage) (e : Int) :
    stagesOf (dbAfter (feed_pet db pid now) db) = stagesOf db ∧
    stagesOf (dbAfter (play_with_pet db pid now) db) = stagesOf db ∧
    stagesOf (dbAfter (update_pet db pid u) db) = stagesOf db ∧
    stagesOf (dbAfter (create_mood_entry db md now) db) = stagesOf db ∧
    (∀ p, findPet db pid = some p →
      ∃ db' r, train_pet db pid now = Except.ok (db', r) ∧
        r.pet.stage = evolveStage p.stage (p.experience + 25) ∧
        findPet db' pid = some r.pet) ∧
    stageIdx s ≤ stageIdx (evolveStage s e) ∧
    (evolveStage s e = s ∨ stageIdx (evolveStage s e) = stageIdx s + 1) ∧
    evolveStage PetStage.egg 400 = PetStage.baby := by
  refine ⟨?_, ?_, ?_, ?_, ?_, (evolveStage_forward s e).1,
    (evolveStage_forward s e).2, by decide⟩
  · simp only [feed_pet]
    cases hf : findPet db pid with
    | none => simp [dbAfter]
    | some pet =>
        simp only [dbAfter, stagesOf]
        exact map_updateFirst _ _ _ _ (fun p => rfl)
  · simp only [play_with_pet]
    cases hf : findPet db pid with
    | none => simp [dbAfter]
    | some pet =>
        simp only [dbAfter, stagesOf]
        exact map_updateFirst _ _ _ _ (fun p => rfl)
  · simp only [update_pet]
    cases hf : findPet { db with pets := updateFirst db.pets pid (applyPetUpdate u) } pid with
    | none => simp [dbAfter]
    | some pet =>
        simp only [dbAfter, stagesOf]
        exact map_updateFirst _ _ _ _ (fun p => rfl)
  · simp only [create_mood_entry]
    split
    · simp [dbAfter, stagesOf]
    · simp only [dbAfter, stagesOf]
      exact map_updateFirst _ _ _ _ (fun p => rfl)
  · intro p hp
    refine ⟨{ db with pets := updateFirst db.pets pid (fun q => trainUpdates q now) },
      { message := "Training completed!", pet := trainUpdates p now }, ?_, rfl, ?_⟩
    · simp only [train_pet, hp]
    · simpa [findPet] using
        find_updateFirst db.pets pid (fun q => trainUpdates q now) (fun q => rfl) p hp

/-- Claim C3, witness: on a store with one freshly created pet, feeding keeps
the stage list unchanged, and one train call returns the pet with stage
`evolveStage egg 25 = egg`. -/
theorem C3_witness :
    stagesOf (dbAfter (feed_pet dbOne "p1" 0) dbOne) = stagesOf dbOne ∧
    ∃ db' r, train_pet dbOne "p1" 0 = Except.ok (db', r) ∧
      r.pet.stage = evolveStage petOne.stage (petOne.experience + 25) ∧
      findPet db' "p1" = some r.pet := by
  have h := C3_theorem dbOne "p1" 0 {} { emotion := Emotion.happy, pet_id := "p1" }
    PetStage.egg 0
  exact ⟨h.1, h.2.2.2.2.1 petOne (by decide)⟩

/-- Claim C4, counterexample to the original statement: the achievements
lookup for a pet identifier that addresses no pet does NOT fail with
NotFound — on an empty store and the unknown id "ghost" it succeeds and
returns the five freshly seeded default achievements. -/
theorem C4_counterexample :
    findPet dbEmpty "ghost" = none ∧
    isOkE (get_achievements dbEmpty "ghost") = true ∧
    (okPayload (get_achievements dbEmpty "ghost")).map List.length = some 5 := by
  decide

/-- Claim C4 (amended): for a pet identifier that addresses no existing pet,
get-pet, update-pet, feed, play and train each fail with NotFound, while the
achievements lookup never fails — it seeds and returns default achievement
rows for the unknown identifier. -/
theorem C4_theorem (db : DB) (pid : String) (now : Nat) (u : PetUpdate)
    (h : findPet db pid = none) :
    get_pet db pid = Except.error (ApiError.notFound "Pet not found") ∧
    update_pet db pid u = Except.error (ApiError.notFound "Pet not found") ∧
    feed_pet db pid now = Except.error (ApiError.notFound "Pet not found") ∧
    play_with_pet db pid now = Except.error (ApiError.notFound "Pet not found") ∧
    train_pet db pid now = Except.error (ApiError.notFound "Pet not found") ∧
    isOkE (get_achievements db pid) = true := by
  have hupd : updateFirst db.pets pid (applyPetUpdate u) = db.pets :=
    updateFirst_of_find_none db.pets pid (applyPetUpdate u) h
  refine ⟨?_, ?_, ?_, ?_, ?_, ?_⟩
  · simp [get_pet, h]
  · have : findPet { db with pets := updateFirst db.pets pid (applyPetUpdate u) } pid
        = none := by
      simpa [findPet, hupd] using h
    simp [update_pet, this]
  · simp [feed_pet, h]
  · simp [play_with_pet, h]
  · simp [train_pet, h]
  · simp only [get_achievements]
    split <;> rfl

/-- Claim C4, witness: the empty store with id "ghost". -/
theorem C4_witness :
    findPet dbEmpty "ghost" = none ∧
    (get_pet dbEmpty "ghost" = Except.error (ApiError.notFound "Pet not found") ∧
     update_pet dbEmpty "ghost" {} =
       Except.error (ApiError.notFound "Pet not found") ∧
     feed_pet dbEmpty "ghost" 0 =
       Except.error (ApiError.notFound "Pet not found") ∧
     play_with_pet dbEmpty "ghost" 0 =
       Except.error (ApiError.notFound "Pet not found") ∧
     train_pet dbEmpty "ghost" 0 =
       Except.error (ApiError.notFound "Pet not found") ∧
     isOkE (get_achievements dbEmpty "ghost") = true) :=
  ⟨by decide, C4_theorem dbEmpty "ghost" 0 {} (by decide)⟩

/-- Iterated training: run the train handler `k` times against the store,
addressing `pid`, using the call index as the timestamp. -/
def trainTimes (db : DB) (pid : String) : Nat → DB
  | 0 => db
  | n + 1 => dbAfter (train_pet (trainTimes db pid n) pid n) (trainTimes db pid n)

/-- The store after POST /api/pets creates one fresh pet in an empty store
(its generated id is "0"). -/
def c5Start : DB := dbAfter (create_pet dbEmpty "MoodPet" 0) dbEmpty

/-- Experience and stage of the fresh pet after `k` train calls. -/
def c5PetAfter (k : Nat) : Option (Int × PetStage) :=
  (findPet (trainTimes c5Start "0" k) "0").map (fun p => (p.experience, p.stage))

/-- Claim C5: a freshly created pet (experience 0, stage egg) trained six
times has experience 25·k after call k, with stages: egg after call 1
(25 < 50), baby after call 2 (50), baby after calls 3–5 (75/100/125 < 150),
adult after call 6 (150). -/
theorem C5_theorem :
    c5PetAfter 0 = some (0, PetStage.egg) ∧
    c5PetAfter 1 = some (25, PetStage.egg) ∧
    c5PetAfter 2 = some (50, PetStage.baby) ∧
    c5PetAfter 3 = some (75, PetStage.baby) ∧
    c5PetAfter 4 = some (100, PetStage.baby) ∧
    c5PetAfter 5 = some (125, PetStage.baby) ∧
    c5PetAfter 6 = some (150, PetStage.adult) := by decide

/-- Inserting a mood entry and bumping the id counter does not change how a
pet is looked up. -/
theorem findPet_mood_aux (db : DB) (ms : List MoodEntryDoc) (n : Nat)
    (pid : String) :
    findPet { db with mood_entries := ms, nextId := n } pid = findPet db pid := rfl

/-- A PUT payload setting happiness, health and coins and leaving the name. -/
def updSet (hap hea coi : Int) : PetUpdate :=
  { name := none, happiness := some hap, health := some hea, coins := some coi }

/-- A mood log request: angry at intensity 9 for pet "p1". -/
def mdAngry9 : MoodEntryCreate :=
  { emotion := Emotion.angry, intensity := 9, pet_id := "p1" }

/-- A mood log request: sad at intensity 4 for the unknown pet "ghost". -/
def mdSad4 : MoodEntryCreate :=
  { emotion := Emotion.sad, intensity := 4, pet_id := "ghost" }

/-- Claim C6: logging a mood whose owning pet exists adds exactly
10 + intensity coins and exactly 5 experience to that pet, for every emotion
and every intensity in [1,10]. -/
theorem C6_theorem (db : DB) (md : MoodEntryCreate) (now : Nat) (p : PetDoc)
    (hp : findPet db md.pet_id = some p)
    (_h1 : 1 ≤ md.intensity) (_h2 : md.intensity ≤ 10) :
    ∃ db' entry, create_mood_entry db md now = Except.ok (db', entry) ∧
      ∃ p', findPet db' md.pet_id = some p' ∧
        p'.coins = p.coins + (10 + md.intensity) ∧
        p'.experience = p.experience + 5 := by
  simp only [create_mood_entry]
  split
  next heq =>
    rw [findPet_mood_aux, hp] at heq
    cases heq
  next pet heq =>
    rw [findPet_mood_aux, hp] at heq
    obtain rfl : p = pet := by injection heq
    refine ⟨_, _, rfl,
      { p with
          happiness := max 0 (min 100 (p.happiness +
            moodHappinessChange md.emotion md.intensity)),
          coins := p.coins + (10 + md.intensity),
          experience := p.experience + 5 }, ?_, rfl, rfl⟩
    simpa [findPet] using
      find_updateFirst db.pets md.pet_id
        (fun q => { q with
          happiness := max 0 (min 100 (p.happiness +
            moodHappinessChange md.emotion md.intensity)),
          coins := q.coins + (10 + md.intensity),
          experience := q.experience + 5 }) (fun q => rfl) p hp

/-- Claim C6, witness: one pet, emotion angry, intensity 9. -/
theorem C6_witness :
    findPet dbOne "p1" = some petOne ∧ (1 : Int) ≤ mdAngry9.intensity ∧
    mdAngry9.intensity ≤ 10 ∧
    ∃ db' entry, create_mood_entry dbOne mdAngry9 3 = Except.ok (db', entry) ∧
      ∃ p', findPet db' mdAngry9.pet_id = some p' ∧
        p'.coins = petOne.coins + (10 + mdAngry9.intensity) ∧
        p'.experience = petOne.experience + 5 :=
  ⟨by decide, by decide, by decide,
    C6_theorem dbOne mdAngry9 3 petOne (by decide) (by decide) (by decide)⟩

/-- Claim C7: on an existing pet, feed adds +15 happiness and +10 health
(each clamped above by 100), +5 coins, +10 experience and stamps last_fed;
play adds +20 happiness (clamped), +8 coins, +15 experience, leaves health
unchanged and stamps last_played; train adds +10 happiness and +5 health
(clamped), +12 coins, +25 experience and stamps last_trained; coins and
experience are plain sums, never clamped. -/
theorem C7_theorem (db : DB) (pid : String) (now : Nat) (p : PetDoc)
    (hp : findPet db pid = some p) :
    (∃ db' r, feed_pet db pid now = Except.ok (db', r) ∧
      r.pet.happiness = min 100 (p.happiness + 15) ∧
      r.pet.health = min 100 (p.health + 10) ∧
      r.pet.coins = p.coins + 5 ∧
      r.pet.experience = p.experience + 10 ∧
      r.pet.last_fed = some now ∧
      findPet db' pid = some r.pet) ∧
    (∃ db' r, play_with_pet db pid now = Except.ok (db', r) ∧
      r.pet.happiness = min 100 (p.happiness + 20) ∧
      r.pet.health = p.health ∧
      r.pet.coins = p.coins + 8 ∧
      r.pet.experience = p.experience + 15 ∧
      r.pet.last_played = some now ∧
      findPet db' pid = some r.pet) ∧
    (∃ db' r, train_pet db pid now = Except.ok (db', r) ∧
      r.pet.happiness = min 100 (p.happiness + 10) ∧
      r.pet.health = min 100 (p.health + 5) ∧
      r.pet.coins = p.coins + 12 ∧
      r.pet.experience = p.experience + 25 ∧
      r.pet.last_trained = some now ∧
      findPet db' pid = some r.pet) := by
  refine
    ⟨⟨{ db with pets := updateFirst db.pets pid (fun q => feedUpdates q now) },
      { message := "Pet fed successfully!", pet := feedUpdates p now },
      ?_, rfl, rfl, rfl, rfl, rfl, ?_⟩,
     ⟨{ db with pets := updateFirst db.pets pid (fun q => playUpdates q now) },
      { message := "Had fun playing!", pet := playUpdates p now },
      ?_, rfl, rfl, rfl, rfl, rfl, ?_⟩,
     ⟨{ db with pets := updateFirst db.pets pid (fun q => trainUpdates q now) },
      { message := "Training completed!", pet := trainUpdates p now },
      ?_, rfl, rfl, rfl, rfl, rfl, ?_⟩⟩
  · simp only [feed_pet, hp]
  · simpa [findPet] using
      find_updateFirst db.pets pid (fun q => feedUpdates q now) (fun q => rfl) p hp
  · simp only [play_with_pet, hp]
  · simpa [findPet] using
      find_updateFirst db.pets pid (fun q => playUpdates q now) (fun q => rfl) p hp
  · simp only [train_pet, hp]
  · simpa [findPet] using
      find_updateFirst db.pets pid (fun q => trainUpdates q now) (fun q => rfl) p hp

/-- Claim C7, witness: the three actions applied to a default pet. -/
theorem C7_witness :
    findPet dbOne "p1" = some petOne ∧
    ((∃ db' r, feed_pet dbOne "p1" 7 = Except.ok (db', r) ∧
      r.pet.happiness = min 100 (petOne.happiness + 15) ∧
      r.pet.health = min 100 (petOne.health + 10) ∧
      r.pet.coins = petOne.coins + 5 ∧
      r.pet.experience = petOne.experience + 10 ∧
      r.pet.last_fed = some 7 ∧
      findPet db' "p1" = some r.pet) ∧
    (∃ db' r, play_with_pet dbOne "p1" 7 = Except.ok (db', r) ∧
      r.pet.happiness = min 100 (petOne.happiness + 20) ∧
      r.pet.health = petOne.health ∧
      r.pet.coins = petOne.coins + 8 ∧
      r.pet.experience = petOne.experience + 15 ∧
      r.pet.last_played = some 7 ∧
      findPet db' "p1" = some r.pet) ∧
    (∃ db' r, train_pet dbOne "p1" 7 = Except.ok (db', r) ∧
      r.pet.happiness = min 100 (petOne.happiness + 10) ∧
      r.pet.health = min 100 (petOne.health + 5) ∧
      r.pet.coins = petOne.coins + 12 ∧
      r.pet.experience = petOne.experience + 25 ∧
      r.pet.last_trained = some 7 ∧
      findPet db' "p1" = some r.pet)) :=
  ⟨by decide, C7_theorem dbOne "p1" 7 petOne (by decide)⟩

/-- Claim C8: logging a mood whose pet_id addresses no existing pet still
persists the entry (appended to the mood collection), returns it without
raising, and leaves the pets, achievements and shop collections untouched. -/
theorem C8_theorem (db : DB) (md : MoodEntryCreate) (now : Nat)
    (h : findPet db md.pet_id = none) :
    ∃ db' entry, create_mood_entry db md now = Except.ok (db', entry) ∧
      db'.mood_entries = db.mood_entries ++ [entry] ∧
      db'.pets = db.pets ∧
      db'.achievements = db.achievements ∧
      db'.shop_items = db.shop_items ∧
      entry.emotion = md.emotion ∧ entry.intensity = md.intensity ∧
      entry.note = md.note ∧ entry.pet_id = md.pet_id := by
  simp only [create_mood_entry]
  split
  next heq =>
    exact ⟨_, _, rfl, rfl, rfl, rfl, rfl, rfl, rfl, rfl, rfl⟩
  next pet heq =>
    rw [findPet_mood_aux, h] at heq
    cases heq

/-- Claim C8, witness: empty store, emotion sad, unknown pet id "ghost". -/
theorem C8_witness :
    findPet dbEmpty mdSad4.pet_id = none ∧
    ∃ db' entry, create_mood_entry dbEmpty mdSad4 1 = Except.ok (db', entry) ∧
      db'.mood_entries = dbEmpty.mood_entries ++ [entry] ∧
      db'.pets = dbEmpty.pets ∧
      db'.achievements = dbEmpty.achievements ∧
      db'.shop_items = dbEmpty.shop_items ∧
      entry.emotion = mdSad4.emotion ∧ entry.intensity = mdSad4.intensity ∧
      entry.note = mdSad4.note ∧ entry.pet_id = mdSad4.pet_id :=
  ⟨by decide, C8_theorem dbEmpty mdSad4 1 (by decide)⟩

/-- Claim C9: on a store whose shop collection is empty, the catalog call
returns exactly the five default items (their content matching the defaults,
with pairwise distinct names), persists them, and a second call returns the
very same five items from the now-populated collection without re-seeding. -/
theorem C9_theorem (db : DB) (h : db.shop_items = []) :
    ∃ db1 items, get_shop_items db = Except.ok (db1, items) ∧
      items.length = 5 ∧
      items.map shopItemData = (defaultShopItems 0).map shopItemData ∧
      (items.map (fun it => it.name)).Nodup ∧
      db1.shop_items = items ∧
      get_shop_items db1 = Except.ok (db1, items) := by
  obtain ⟨pets, moods, achs, shop, nid⟩ := db
  dsimp only at h
  subst h
  refine ⟨_, _, rfl, rfl, rfl, ?_, rfl, rfl⟩
  show (["Premium Food", "Toy Ball", "Training Weights", "Sparkle Background",
    "Rainbow Collar"] : List String).Nodup
  decide

/-- Claim C9, witness: the empty store. -/
theorem C9_witness :
    dbEmpty.shop_items = [] ∧
    ∃ db1 items, get_shop_items dbEmpty = Except.ok (db1, items) ∧
      items.length = 5 ∧
      items.map shopItemData = (defaultShopItems 0).map shopItemData ∧
      (items.map (fun it => it.name)).Nodup ∧
      db1.shop_items = items ∧
      get_shop_items db1 = Except.ok (db1, items) :=
  ⟨rfl, C9_theorem dbEmpty rfl⟩

/-- Claim C10: PUT /api/pets stores caller-supplied happiness, health and
coins exactly as given — no clamping to [0,100], no sign check — so
out-of-range stored stats are reachable through the public interface. -/
theorem C10_theorem (db : DB) (pid : String) (p : PetDoc) (hap hea coi : Int)
    (hp : findPet db pid = some p) :
    ∃ db' p', update_pet db pid (updSet hap hea coi) = Except.ok (db', p') ∧
      p'.happiness = hap ∧ p'.health = hea ∧ p'.coins = coi ∧
      p'.name = p.name ∧ p'.stage = p.stage ∧ p'.experience = p.experience ∧
      findPet db' pid = some p' := by
  have hf := find_updateFirst db.pets pid (applyPetUpdate (updSet hap hea coi))
    (fun q => rfl) p hp
  refine ⟨{ db with pets := updateFirst db.pets pid (applyPetUpdate (updSet hap hea coi)) },
    applyPetUpdate (updSet hap hea coi) p, ?_, rfl, rfl, rfl, rfl, rfl, rfl, ?_⟩
  · simp only [update_pet, findPet]
    rw [hf]
  · simpa [findPet] using hf

/-- Claim C10, witness: happiness -42, health 1000 and coins -7 are stored
verbatim, putting the pet far outside the documented ranges. -/
theorem C10_witness :
    findPet dbOne "p1" = some petOne ∧
    ∃ db' p', update_pet dbOne "p1" (updSet (-42) 1000 (-7)) =
        Except.ok (db', p') ∧
      p'.happiness = -42 ∧ p'.health = 1000 ∧ p'.coins = -7 ∧
      p'.name = petOne.name ∧ p'.stage = petOne.stage ∧
      p'.experience = petOne.experience ∧
      findPet db' "p1" = some p' :=
  ⟨by decide, C10_theorem dbOne "p1" petOne (-42) 1000 (-7) (by decide)⟩
